import Mathlib

/-!
Shallow embedding of the safety layer of safe_tcmalloc
(src/tcmalloc/tcmalloc.cc): the pagemap/span data model, the boundary
check primitives, escape tracking with its commit buffer, free-time
poisoning, realloc/calloc policy and the string-copy guard.

Machine addresses and sizes are modelled as Nat; size_t wraparound is
made explicit (mod 2^64) at the single place the source relies on it
(the calloc overflow check).  Pointers are addresses; the null pointer
is address 0.  Memory is a function from addresses to stored values.
-/

namespace SafeTcmalloc

/-- Span metadata (class Span in the source; fields used by the safety
layer).  obj_size is stored in units of 8 bytes, exactly as in the
source (`span->obj_size * 8ULL` recovers bytes).  escape_list is the
per-slot array of singly linked escape chains; a chain is modelled as
the list of the loc fields of its nodes, head first. -/
structure SpanData where
  start_address : Nat
  obj_size : Nat
  objects_per_span : Nat
  num_pages : Nat
  sampled : Bool
  sampled_allocated_size : Nat
  escape_list : Option (Nat → List Nat)

/-- Global allocator state visible to the safety layer: the pagemap
(packed per-page word and span descriptor), the span table, the size
map, application memory, the per-thread escape commit buffer
(escape_caches together with escape_pos, modelled as a list of (loc,
ptr) pairs of length escape_pos), and sinks recording deposits to
freelists and escape nodes returned to the arena.

class_to_size and sizeClassOf model the SizeMap.  Modelled from the
spec: the SizeMap implementation (sizemap.h / size class tables) is
code of this repository that is not under src/; the spec fixes its
contract (class 0 reserved for "not a small object", and size-class
monotonicity: class_to_size(size_class(n)) >= n), which claims state
as hypotheses where needed. -/
structure TCState where
  pageShift : Nat
  pageInfo : Nat → Nat
  descriptor : Nat → Option Nat
  spans : Nat → SpanData
  class_to_size : Nat → Nat
  sizeClassOf : Nat → Nat
  mem : Nat → Nat
  membyte : Nat → Nat
  guarded : Nat → Bool
  guardedReqSize : Nat → Nat
  buffer : List (Nat × Nat)
  cacheSize : Nat
  freelist : List Nat
  pagesFreed : List Nat
  arenaFreed : List Nat

/-- PageIdContaining: address right-shifted by the page-size bits. -/
def pageIdOf (s : TCState) (a : Nat) : Nat := a >>> s.pageShift

/-- PageId.start_addr(): page index shifted left by the page-size bits. -/
def pageStartAddr (s : TCState) (idx : Nat) : Nat := idx <<< s.pageShift

/-- Replace the span record with id sid. -/
def setSpan (s : TCState) (sid : Nat) (d : SpanData) : TCState :=
  { s with spans := fun i => if i = sid then d else s.spans i }

/-- The escape chain hanging off slot idx of span sid (empty when the
span has no escape_list array or the slot head is null). -/
def slotChain (s : TCState) (sid idx : Nat) : List Nat :=
  match (s.spans sid).escape_list with
  | none => []
  | some el => el idx

/-- GetSize (tcmalloc.cc:834-851): internal size of the allocation
holding ptr, from the pagemap size class when nonzero, else from the
span (sampled spans report the sampled/guarded size, other class-0
spans the whole span).  GetExistingDescriptor assumes the descriptor
is present; an absent descriptor is modelled as size 0 (claims using
GetSize carry the presence assumption as a hypothesis). -/
def GetSize (s : TCState) (ptr : Nat) : Nat :=
  if ptr = 0 then 0 else
  let p := pageIdOf s ptr
  let size_class := s.pageInfo p % 256
  if size_class ≠ 0 then
    s.class_to_size size_class
  else
    match s.descriptor p with
    | none => 0
    | some sid =>
      let span := s.spans sid
      if span.sampled then
        if s.guarded ptr then s.guardedReqSize ptr
        else span.sampled_allocated_size
      else span.num_pages <<< s.pageShift

/-- do_gep_check_boundary (tcmalloc.cc:1554-1607).  Resolves base
through the packed pagemap word: low 8 bits are the compact size
class; when nonzero the object size comes from the size map and the
span start from the remaining bits; when zero the Span descriptor is
consulted, and its absence means non-heap (return 1).  Then the
containment test on the chunk holding base: 0 inside, -1 outside.
The report-only build is modelled (CRASH_ON_CORRUPTION off: the
failure path logs and returns -1). -/
def do_gep_check_boundary (s : TCState) (base ptr size : Nat) : Int :=
  let p := pageIdOf s base
  let page_info := s.pageInfo p
  let size_class := page_info % 256
  let info : Option (Nat × Nat) :=
    if size_class ≠ 0 then
      some (pageStartAddr s (page_info >>> 8), s.class_to_size size_class)
    else
      match s.descriptor p with
      | none => none
      | some sid => some ((s.spans sid).start_address, (s.spans sid).obj_size * 8)
  match info with
  | none => 1
  | some (start_addr, obj_size) =>
    let chunk_start := start_addr + ((base - start_addr) / obj_size) * obj_size
    let chunk_end := chunk_start + obj_size
    if chunk_start ≤ ptr ∧ ptr + size ≤ chunk_end then 0 else -1

/-- do_bc_check_boundary (tcmalloc.cc:1612-1664): the same resolution
and containment test as do_gep_check_boundary, with base playing the
role of the access pointer.  Written out independently, following its
own source text. -/
def do_bc_check_boundary (s : TCState) (base size : Nat) : Int :=
  let p := pageIdOf s base
  let page_info := s.pageInfo p
  let size_class := page_info % 256
  let info : Option (Nat × Nat) :=
    if size_class ≠ 0 then
      some (pageStartAddr s (page_info >>> 8), s.class_to_size size_class)
    else
      match s.descriptor p with
      | none => none
      | some sid => some ((s.spans sid).start_address, (s.spans sid).obj_size * 8)
  match info with
  | none => 1
  | some (start_addr, obj_size) =>
    let chunk_start := start_addr + ((base - start_addr) / obj_size) * obj_size
    let chunk_end := chunk_start + obj_size
    if chunk_start ≤ base ∧ base + size ≤ chunk_end then 0 else -1

/-- Resolver written from the words of claim C1: obj_size and
start_addr are taken from the packed page-table word when the compact
size class is nonzero, else from the Span; none when the page has
neither. -/
def gep_resolve (s : TCState) (base : Nat) : Option (Nat × Nat) :=
  let page_info := s.pageInfo (pageIdOf s base)
  if page_info % 256 ≠ 0 then
    some (pageStartAddr s (page_info >>> 8), s.class_to_size (page_info % 256))
  else
    match s.descriptor (pageIdOf s base) with
    | none => none
    | some sid => some ((s.spans sid).start_address, (s.spans sid).obj_size * 8)

/-- poison_escapes (tcmalloc.cc:878-895): walk the escape chain of
slot idx, free every node, and reset the slot head to null; return
early when the span has no escape_list array or the slot head is
already null.  The poisoning store on nodes whose target cell still
points into [ptr, end_) is commented out in the source, so memory is
never written; freed nodes are recorded in arenaFreed. -/
def poison_escapes (s : TCState) (sid idx : Nat) (ptr end_ : Nat) : TCState :=
  let span := s.spans sid
  match span.escape_list with
  | none => s
  | some el =>
    match el idx with
    | [] => s
    | chain =>
      let s1 := { s with arenaFreed := s.arenaFreed ++ chain }
      setSpan s1 sid
        { span with escape_list := some (fun i => if i = idx then [] else el i) }

/-- commit_escape (tcmalloc.cc:1690-1708): allocate the span escape
list when absent (zeroed: every slot chain empty) and prepend a node
holding loc to slot idx. -/
def commit_escape (s : TCState) (sid : Nat) (loc idx : Nat) : TCState :=
  let span := s.spans sid
  let el := match span.escape_list with
    | none => fun _ => ([] : List Nat)
    | some el => el
  setSpan s sid
    { span with escape_list := some (fun i => if i = idx then loc :: el i else el i) }

/-- One iteration of the commit-buffer drain loop in do_escape
(tcmalloc.cc:1772-1792): revalidate that the cell at loc still stores
ptr, that ptr's page still has a span with a nonzero stamped object
size and that the derived slot index is below 1024 (the escape-list
array capacity); on success insert the node, otherwise drop the
entry. -/
def commit_entry (s : TCState) (e : Nat × Nat) : TCState :=
  let loc := e.1
  let ptr := e.2
  if s.mem loc = ptr then
    match s.descriptor (pageIdOf s ptr) with
    | none => s
    | some sid =>
      let span := s.spans sid
      if span.obj_size = 0 then s
      else
        let obj_size := span.obj_size * 8
        let idx := (ptr - span.start_address) / obj_size
        if 1024 ≤ idx then s
        else commit_escape s sid loc idx
  else s

/-- The full drain (tcmalloc.cc:1770-1794): commit every buffered
(loc, ptr) pair in order, then reset escape_pos to 0. -/
def escape_drain (s : TCState) : TCState :=
  { s.buffer.foldl commit_entry s with buffer := [] }

/-- do_escape (tcmalloc.cc:1710-1800): record that the cell at loc now
stores ptr.  Drops (-1) when loc's page has no span, when ptr's page
has no span, when ptr's span has a zero stamped object size, or - only
after the same-slot early return - when the derived slot index is not
below objects_per_span.  When the cell already points into the same
object slot, returns 0 without mutation.  Otherwise drains the commit
buffer if it is full and appends the new pair. -/
def do_escape (s : TCState) (loc ptr : Nat) : Int × TCState :=
  match s.descriptor (pageIdOf s loc) with
  | none => (-1, s)
  | some _ =>
    match s.descriptor (pageIdOf s ptr) with
    | none => (-1, s)
    | some sid =>
      let span := s.spans sid
      let obj_size := span.obj_size * 8
      if obj_size = 0 then (-1, s)
      else
        let idx := (ptr - span.start_address) / obj_size
        let obj_start := span.start_address + obj_size * idx
        let old_ptr := s.mem loc
        if obj_start ≤ old_ptr ∧ old_ptr < obj_start + obj_size then (0, s)
        else if span.objects_per_span ≤ idx then (-1, s)
        else
          let s1 := if s.buffer.length = s.cacheSize then escape_drain s else s
          (0, { s1 with buffer := s1.buffer ++ [(loc, ptr)] })

/-- Events emitted by the free path: log lines and freelist deposits. -/
inductive FreeEvent where
  | invalidFreeLog
  | noSpanLog
  | checkFailed
  | depositSmall (sc : Nat) (ptr : Nat)
  | depositPages (ptr : Nat)
deriving DecidableEq, Repr

/-- do_free_with_size_class in the non-sized form, ENABLE_PROTECTION
on, report-only build (tcmalloc.cc:1102-1178, CRASH_ON_CORRUPTION
off).  When the page has a span: assert (CHECK_CONDITION) that
GetSize(ptr) matches the span's stamped object size and is nonzero;
if ptr is not aligned to an object boundary, log double/invalid free
and return with the state untouched; otherwise poison the escapes of
the slot and deposit the chunk (small path when the pagemap size
class is nonzero, page path otherwise).  When the page has no span:
log (poison-patterned pointers as double/invalid free, others as
no-span) and return. -/
def do_free_protected (s : TCState) (ptr : Nat) : List FreeEvent × TCState :=
  if ptr = 0 then ([], s) else
  let p := pageIdOf s ptr
  match s.descriptor p with
  | some sid =>
    let span := s.spans sid
    let obj_size := GetSize s ptr
    if obj_size ≠ span.obj_size * 8 ∨ obj_size = 0 then ([.checkFailed], s)
    else
      let start_addr := span.start_address
      if (ptr - start_addr) % obj_size ≠ 0 then
        ([.invalidFreeLog], s)
      else
        let idx := (ptr - start_addr) / obj_size
        let s1 := poison_escapes s sid idx ptr (ptr + obj_size)
        let sc := s.pageInfo p % 256
        if sc ≠ 0 then
          ([.depositSmall sc ptr], { s1 with freelist := ptr :: s1.freelist })
        else
          ([.depositPages ptr], { s1 with pagesFreed := ptr :: s1.pagesFreed })
  | none =>
    if Nat.land ptr 0xdeadbeef00000000 = 0xdeadbeef00000000 then
      ([.invalidFreeLog], s)
    else
      ([.noSpanLog], s)

/-- SIZE_MAX of the 64-bit build. -/
def SIZE_MAX : Nat := 2 ^ 64 - 1

/-- Observable outcome of do_realloc: the returned pointer (none for
nullptr), the sizes requested from fast_alloc in call order, the
number of bytes memcpy-ed from the old block (none when no copy
happened), and whether the old block was freed. -/
structure ReallocResult where
  ret : Option Nat
  allocCalls : List Nat
  copied : Option Nat
  freedOld : Bool
deriving DecidableEq, Repr

/-- do_realloc (tcmalloc.cc:2181-2232).  oracle models fast_alloc as a
map from requested size to the returned pointer (none on failure);
prot is the ENABLE_PROTECTION build flag adding the one-byte pad to
new_size.  Reallocate when the new size is larger than the old or
below half of it; on a tiny growth (new below old + old/4, clamped at
SIZE_MAX) first try an allocation of that lower growth bound; copy
min(old, new) bytes and free the old block; otherwise keep the old
pointer untouched. -/
def do_realloc (prot : Bool) (oracle : Nat → Option Nat) (s : TCState)
    (old_ptr new_size0 : Nat) : ReallocResult :=
  let old_size := GetSize s old_ptr
  let new_size := if prot then new_size0 + 1 else new_size0
  let min_growth := min (old_size / 4) (SIZE_MAX - old_size)
  let lower_bound_to_grow := old_size + min_growth
  let upper_bound_to_shrink := old_size / 2
  if old_size < new_size ∨ new_size < upper_bound_to_shrink then
    let tryLower := old_size < new_size ∧ new_size < lower_bound_to_grow
    let first : Option Nat := if tryLower then oracle lower_bound_to_grow else none
    match first with
    | some np =>
      { ret := some np, allocCalls := [lower_bound_to_grow],
        copied := some (min old_size new_size), freedOld := true }
    | none =>
      let calls := if tryLower then [lower_bound_to_grow] else []
      match oracle new_size with
      | none =>
        { ret := none, allocCalls := calls ++ [new_size],
          copied := none, freedOld := false }
      | some np =>
        { ret := some np, allocCalls := calls ++ [new_size],
          copied := some (min old_size new_size), freedOld := true }
  else
    { ret := some old_ptr, allocCalls := [], copied := none, freedOld := false }

/-- The size fast_alloc hands to the size-class lookup
(tcmalloc.cc:1938-1951): under ENABLE_PROTECTION every allocation is
padded by one byte before GetSizeClass is consulted. -/
def fast_alloc_lookup_size (prot : Bool) (n : Nat) : Nat :=
  if prot then n + 1 else n

/-- TCMallocInternalMallocSize (tcmalloc.cc:2609-2612): the internal
size minus the one protection padding byte. -/
def TCMallocInternalMallocSize (s : TCState) (ptr : Nat) : Nat :=
  GetSize s ptr - 1

/-- TCMallocInternalCalloc (tcmalloc.cc:2156-2167).  The product is
computed in size_t (mod 2^64); when elem_size is nonzero and dividing
the wrapped product by it does not give n back, the overflow is
reported via handle_oom (nullptr under the malloc policy) with no
allocation attempted.  Otherwise allocate and memset on success.
Returns (result, sizes requested from fast_alloc, whether memset
ran). -/
def TCMallocInternalCalloc (oracle : Nat → Option Nat) (n elem_size : Nat) :
    Option Nat × List Nat × Bool :=
  let size := (n * elem_size) % 2 ^ 64
  if elem_size ≠ 0 ∧ size / elem_size ≠ n then (none, [], false)
  else
    match oracle size with
    | none => (none, [size], false)
    | some p => (some p, [size], true)

/-- do_get_chunk_end (tcmalloc.cc:1384-1413): the end of the chunk
holding base, resolved through the same pagemap primitive as the
boundary checks; the sentinel 2^48 for non-heap addresses. -/
def do_get_chunk_end (s : TCState) (base : Nat) : Nat :=
  let p := pageIdOf s base
  let page_info := s.pageInfo p
  let size_class := page_info % 256
  let info : Option (Nat × Nat) :=
    if size_class ≠ 0 then
      some (pageStartAddr s (page_info >>> 8), s.class_to_size size_class)
    else
      match s.descriptor p with
      | none => none
      | some sid => some ((s.spans sid).start_address, (s.spans sid).obj_size * 8)
  match info with
  | none => 0x1000000000000
  | some (start_addr, obj_size) =>
    start_addr + ((base - start_addr) / obj_size) * obj_size + obj_size

/-- The copy loop of do_strcpy_check (tcmalloc.cc:1448-1460) in the
report-only build (ENABLE_ERROR_REPORT logging, CRASH_ON_CORRUPTION
off): while the source byte is nonzero, copy and advance only when
both cursors are inside their chunks; a failed check only logs,
leaving both cursors in place.  Modelled with explicit fuel; none
means the loop did not finish within the given fuel.  On exit the
terminating null is written and the final (memory, dst cursor) is
returned. -/
def strcpy_loop (dst_end src_end : Nat) :
    Nat → (Nat → Nat) → Nat → Nat → Option ((Nat → Nat) × Nat)
  | 0, _, _, _ => none
  | fuel + 1, mem, dst, src =>
    if mem src ≠ 0 then
      if src < src_end ∧ dst < dst_end then
        strcpy_loop dst_end src_end fuel
          (fun a => if a = dst then mem src else mem a) (dst + 1) (src + 1)
      else
        strcpy_loop dst_end src_end fuel mem dst src
    else
      some (fun a => if a = dst then 0 else mem a, dst)

/-- do_strcpy_check (tcmalloc.cc:1441-1464): compute both chunk ends
through the pagemap, then run the byte copy loop. -/
def do_strcpy_check (s : TCState) (dst src : Nat) (fuel : Nat) :
    Option ((Nat → Nat) × Nat) :=
  strcpy_loop (do_get_chunk_end s dst) (do_get_chunk_end s src) fuel
    s.membyte dst src

/-- A span record with the given start address, stamped object size
(8-byte units), object count and no escape list; helper for concrete
states. -/
def exSpan (start os ops : Nat) : SpanData :=
  { start_address := start, obj_size := os, objects_per_span := ops,
    num_pages := 1, sampled := false, sampled_allocated_size := 0,
    escape_list := none }

/-- A concrete allocator state with 4 KiB pages (pageShift 12); the
remaining components are the given maps, an all-nonzero byte memory,
and empty sinks. -/
def mkState (pi : Nat → Nat) (desc : Nat → Option Nat) (sp : Nat → SpanData)
    (cls : Nat → Nat) (mem : Nat → Nat) (buf : List (Nat × Nat))
    (csz : Nat) : TCState :=
  { pageShift := 12, pageInfo := pi, descriptor := desc, spans := sp,
    class_to_size := cls, sizeClassOf := fun _ => 0, mem := mem,
    membyte := fun _ => 65, guarded := fun _ => false,
    guardedReqSize := fun _ => 0, buffer := buf, cacheSize := csz,
    freelist := [], pagesFreed := [], arenaFreed := [] }

/-- CLAIM C6: do_bc_check_boundary(base, size) agrees with
do_gep_check_boundary(base, base, size) on every pagemap state, base
and size: the two are extensionally equal as maps into {0, -1, 1}. -/
theorem claim_C6 (s : TCState) (base size : Nat) :
    do_bc_check_boundary s base size = do_gep_check_boundary s base base size := by
  rfl

/-- CLAIM C1: do_gep_check_boundary returns 1 exactly when base's page
has neither a compact size class nor a Span; when the page resolves to
(start_addr, obj_size) - from the packed page-table word when the
compact class is nonzero, else from the Span - it returns 0 exactly
when ptr lies at or after chunk_start and ptr + size is at most
chunk_end, with chunk_start = start_addr + ((base - start_addr) /
obj_size) * obj_size and chunk_end = chunk_start + obj_size, and -1
exactly otherwise. -/
theorem claim_C1 (s : TCState) (base ptr size : Nat) :
    (do_gep_check_boundary s base ptr size = 1 ↔ gep_resolve s base = none) ∧
    (∀ start_addr obj_size, gep_resolve s base = some (start_addr, obj_size) →
      ((do_gep_check_boundary s base ptr size = 0 ↔
         start_addr + ((base - start_addr) / obj_size) * obj_size ≤ ptr ∧
         ptr + size ≤ start_addr + ((base - start_addr) / obj_size) * obj_size + obj_size) ∧
       (do_gep_check_boundary s base ptr size = -1 ↔
         ¬(start_addr + ((base - start_addr) / obj_size) * obj_size ≤ ptr ∧
           ptr + size ≤ start_addr + ((base - start_addr) / obj_size) * obj_size + obj_size)))) := by
  have he : do_gep_check_boundary s base ptr size =
      (match gep_resolve s base with
       | none => 1
       | some (start_addr, obj_size) =>
         if start_addr + ((base - start_addr) / obj_size) * obj_size ≤ ptr ∧
            ptr + size ≤ start_addr + ((base - start_addr) / obj_size) * obj_size + obj_size
         then (0 : Int) else -1) := rfl
  rw [he]
  cases hr : gep_resolve s base with
  | none => simp
  | some pr =>
    obtain ⟨st, os⟩ := pr
    dsimp only
    constructor
    · split <;> simp
    · rintro sa ob h2
      injection h2 with h2
      injection h2 with h3 h4
      subst h3
      subst h4
      constructor
      · split <;> simp_all
      · split <;> simp_all

/-- Sample state for C1: page 1 carries the packed word 259 (compact
class 3, span first page 1) and class 3 has object size 16. -/
def w1State : TCState :=
  mkState (fun p => if p = 1 then 259 else 0) (fun _ => none)
    (fun _ => exSpan 0 0 0) (fun c => if c = 3 then 16 else 0)
    (fun _ => 0) [] 64

/-- Witness for C1 at a concrete input: the page resolves to start
0x1000 with object size 16, and an in-bounds access returns 0. -/
theorem claim_C1_witness :
    gep_resolve w1State 0x1000 = some (0x1000, 16) ∧
    do_gep_check_boundary w1State 0x1000 0x1000 16 = 0 := by
  refine ⟨by decide, ?_⟩
  exact ((claim_C1 w1State 0x1000 0x1000 16).2 0x1000 16 (by decide)).1.mpr (by decide)

/-- The cell at loc already stores a pointer into the same object slot
of span sid that ptr falls in (the early-return test of do_escape). -/
def sameSlot (s : TCState) (sid : Nat) (loc ptr : Nat) : Prop :=
  (s.spans sid).start_address +
      (s.spans sid).obj_size * 8 *
        ((ptr - (s.spans sid).start_address) / ((s.spans sid).obj_size * 8)) ≤
    s.mem loc ∧
  s.mem loc <
    (s.spans sid).start_address +
      (s.spans sid).obj_size * 8 *
        ((ptr - (s.spans sid).start_address) / ((s.spans sid).obj_size * 8)) +
      (s.spans sid).obj_size * 8

/-- The drop condition of do_escape as the code implements it: no span
for loc, no span for ptr, zero stamped object size, or an
out-of-range slot index - the last only when the cell does not already
point into the target slot (the same-slot early return precedes the
index check). -/
def escape_dropped (s : TCState) (loc ptr : Nat) : Prop :=
  s.descriptor (pageIdOf s loc) = none ∨
  s.descriptor (pageIdOf s ptr) = none ∨
  ∃ sid, s.descriptor (pageIdOf s ptr) = some sid ∧
    ((s.spans sid).obj_size = 0 ∨
     ((s.spans sid).obj_size ≠ 0 ∧ ¬ sameSlot s sid loc ptr ∧
      (s.spans sid).objects_per_span ≤
        (ptr - (s.spans sid).start_address) / ((s.spans sid).obj_size * 8)))

/-- CLAIM C2 (amended): do_escape returns -1 exactly when loc's page
has no Span, or ptr's page has no Span, or ptr's span has a zero
stamped object size, or the derived slot index is at least
objects_per_span while the cell at loc does not already point into the
target slot; in every other case - including a same-slot store, even
one whose derived index is out of range - it returns 0. -/
theorem claim_C2 (s : TCState) (loc ptr : Nat) :
    ((do_escape s loc ptr).1 = -1 ↔ escape_dropped s loc ptr) ∧
    ((do_escape s loc ptr).1 = 0 ↔ ¬ escape_dropped s loc ptr) := by
  unfold do_escape
  cases h1 : s.descriptor (pageIdOf s loc) with
  | none => simp [escape_dropped, h1]
  | some l =>
    cases h2 : s.descriptor (pageIdOf s ptr) with
    | none => simp [escape_dropped, h1, h2]
    | some sid =>
      dsimp only
      split_ifs with h3 h4 h5
      · have hD : escape_dropped s loc ptr :=
          Or.inr (Or.inr ⟨sid, h2, Or.inl (by omega)⟩)
        exact ⟨iff_of_true rfl hD, iff_of_false (by simp) (fun hn => hn hD)⟩
      · have hND : ¬ escape_dropped s loc ptr := by
          rintro (h | h | ⟨sid2, hs, h⟩)
          · rw [h1] at h
            exact Option.noConfusion h
          · rw [h2] at h
            exact Option.noConfusion h
          · rw [h2] at hs
            injection hs with hs
            subst hs
            rcases h with h | ⟨_, hns, _⟩
            · omega
            · exact hns h4
        exact ⟨iff_of_false (by simp) (fun hd => hND hd), iff_of_true rfl hND⟩
      · have hD : escape_dropped s loc ptr :=
          Or.inr (Or.inr ⟨sid, h2, Or.inr ⟨by omega, h4, h5⟩⟩)
        exact ⟨iff_of_true rfl hD, iff_of_false (by simp) (fun hn => hn hD)⟩
      all_goals
        have hND : ¬ escape_dropped s loc ptr := by
          rintro (h | h | ⟨sid2, hs, h⟩)
          · rw [h1] at h
            exact Option.noConfusion h
          · rw [h2] at h
            exact Option.noConfusion h
          · rw [h2] at hs
            injection hs with hs
            subst hs
            rcases h with h | ⟨_, _, hge⟩
            · omega
            · exact h5 hge
      all_goals
        exact ⟨iff_of_false (by simp) (fun hd => hND hd), iff_of_true rfl hND⟩

/-- State refuting C2 as frozen: loc 0x1000 is on page 1 (span 0),
ptr 8 is on page 0 whose span has start 0, an 8-byte object size and
a single object per span, so ptr's slot index is 1, out of range;
the cell at loc stores 8, inside that same slot. -/
def cex2State : TCState :=
  mkState (fun _ => 0)
    (fun p => if p = 1 then some 0 else if p = 0 then some 1 else none)
    (fun i => if i = 1 then exSpan 0 1 1 else exSpan 0x1000 1 1)
    (fun _ => 0)
    (fun a => if a = 0x1000 then 8 else 0)
    [] 64

/-- Counterexample to C2 as frozen: at this input every span lookup
succeeds, the stamped object size is nonzero, and the slot index
derived from ptr is at least objects_per_span - the claim says escape
must return -1 here - yet do_escape returns 0, because the same-slot
early return fires before the index check. -/
theorem claim_C2_counterexample :
    (cex2State.spans 1).objects_per_span ≤
      (8 - (cex2State.spans 1).start_address) / ((cex2State.spans 1).obj_size * 8) ∧
    cex2State.descriptor (pageIdOf cex2State 0x1000) = some 0 ∧
    cex2State.descriptor (pageIdOf cex2State 8) = some 1 ∧
    (cex2State.spans 1).obj_size ≠ 0 ∧
    (do_escape cex2State 0x1000 8).1 = 0 := by
  decide

/-- commit_escape prepends one node holding loc to the target slot and
leaves every other slot chain of the span unchanged. -/
theorem commit_escape_slotChain (s : TCState) (sid loc idx : Nat) :
    slotChain (commit_escape s sid loc idx) sid idx = loc :: slotChain s sid idx ∧
    ∀ j, j ≠ idx → slotChain (commit_escape s sid loc idx) sid j = slotChain s sid j := by
  unfold commit_escape slotChain setSpan
  cases h : (s.spans sid).escape_list with
  | none =>
    constructor
    · simp [h]
    · intro j hj
      simp [h, hj]
  | some el =>
    constructor
    · simp [h]
    · intro j hj
      simp [h, hj]

/-- CLAIM C3 (amended): when the full commit buffer is drained, a
pending (loc, ptr) entry is inserted into the escape list of ptr's
span only after revalidating that the cell at loc still stores ptr,
that ptr's page still has a Span with a nonzero stamped object size,
and that the derived slot index is below 1024, the escape-list array
capacity (not below objects_per_span); an entry failing any of these
checks is discarded without inserting a node or changing the state. -/
theorem claim_C3 (s : TCState) (loc ptr : Nat) :
    (s.mem loc ≠ ptr → commit_entry s (loc, ptr) = s) ∧
    (s.descriptor (pageIdOf s ptr) = none → commit_entry s (loc, ptr) = s) ∧
    (∀ sid, s.descriptor (pageIdOf s ptr) = some sid →
      ((s.spans sid).obj_size = 0 → commit_entry s (loc, ptr) = s) ∧
      ((s.spans sid).obj_size ≠ 0 →
        1024 ≤ (ptr - (s.spans sid).start_address) / ((s.spans sid).obj_size * 8) →
        commit_entry s (loc, ptr) = s) ∧
      (s.mem loc = ptr → (s.spans sid).obj_size ≠ 0 →
        (ptr - (s.spans sid).start_address) / ((s.spans sid).obj_size * 8) < 1024 →
        slotChain (commit_entry s (loc, ptr)) sid
            ((ptr - (s.spans sid).start_address) / ((s.spans sid).obj_size * 8)) =
          loc :: slotChain s sid
            ((ptr - (s.spans sid).start_address) / ((s.spans sid).obj_size * 8)) ∧
        ∀ j, j ≠ (ptr - (s.spans sid).start_address) / ((s.spans sid).obj_size * 8) →
          slotChain (commit_entry s (loc, ptr)) sid j = slotChain s sid j)) := by
  refine ⟨?_, ?_, ?_⟩
  · intro h
    unfold commit_entry
    simp [h]
  · intro h
    unfold commit_entry
    by_cases hm : s.mem loc = ptr
    · simp [hm, h]
    · simp [hm]
  · intro sid hs
    refine ⟨?_, ?_, ?_⟩
    · intro h0
      unfold commit_entry
      by_cases hm : s.mem loc = ptr
      · simp [hm, hs, h0]
      · simp [hm]
    · intro h0 hge
      unfold commit_entry
      by_cases hm : s.mem loc = ptr
      · simp only [hm, if_true, hs]
        simp [h0, hge]
      · simp [hm]
    · intro hm h0 hlt
      have hce : commit_entry s (loc, ptr) =
          commit_escape s sid loc
            ((ptr - (s.spans sid).start_address) / ((s.spans sid).obj_size * 8)) := by
        unfold commit_entry
        simp [hm, hs, h0, Nat.not_le.mpr hlt]
      rw [hce]
      exact commit_escape_slotChain s sid loc
        ((ptr - (s.spans sid).start_address) / ((s.spans sid).obj_size * 8))

/-- Witness for C3 at a concrete input: a drained entry whose cell
still stores ptr, span present with nonzero object size and slot
index 1 below the capacity, is inserted at the head of slot 1. -/
theorem claim_C3_witness :
    slotChain (commit_entry cex2State (0x1000, 8)) 1 1 = [0x1000] := by
  have h := (claim_C3 cex2State 0x1000 8).2.2 1 (by decide)
  have h2 := (h.2.2 (by decide) (by decide) (by decide)).1
  simpa using h2

/-- State refuting C3 as frozen: the commit buffer (capacity 1) is
full with the pending pair (0x3000, 0x2010); page 2 holds span 2 with
start 0x2000, 8-byte objects and only 2 objects per span, so the
derived slot index of 0x2010 is 2, not a valid slot; the cell at
0x3000 still stores 0x2010.  Page 3 holds a span so a fresh escape
call can trigger the drain. -/
def cex3State : TCState :=
  mkState (fun _ => 0)
    (fun p => if p = 2 then some 2 else if p = 3 then some 0 else none)
    (fun i => if i = 2 then exSpan 0x2000 1 2 else exSpan 0 1 1)
    (fun _ => 0)
    (fun a => if a = 0x3000 then 0x2010 else 0)
    [(0x3000, 0x2010)] 1

/-- Counterexample to C3 as frozen: the drained entry passes the
revalidation of the code although its slot index 2 is not a valid
slot of span 2 (objects_per_span is 2), and the node is inserted:
after the draining escape call, slot 2's chain holds the entry.  The
claim says such an entry must be discarded. -/
theorem claim_C3_counterexample :
    cex3State.mem 0x3000 = 0x2010 ∧
    (cex3State.spans 2).objects_per_span ≤
      (0x2010 - (cex3State.spans 2).start_address) /
        ((cex3State.spans 2).obj_size * 8) ∧
    slotChain cex3State 2 2 = [] ∧
    slotChain (do_escape cex3State 0x3008 0x2000).2 2 2 = [0x3000] := by
  decide

/-- CLAIM C5: after poison_escapes(span, slot_idx, obj_begin, obj_end)
returns, the slot's chain head is null, every node that was on the
chain has been returned to the escape arena, and any cell named by a
node whose stored value lies outside [obj_begin, obj_end) is
unchanged (in this source the poison store is commented out, so in
fact no cell is written at all). -/
theorem claim_C5 (s : TCState) (sid idx obj_begin obj_end : Nat) :
    slotChain (poison_escapes s sid idx obj_begin obj_end) sid idx = [] ∧
    (∀ loc ∈ slotChain s sid idx,
      loc ∈ (poison_escapes s sid idx obj_begin obj_end).arenaFreed) ∧
    (∀ loc ∈ slotChain s sid idx,
      ¬(obj_begin ≤ s.mem loc ∧ s.mem loc < obj_end) →
      (poison_escapes s sid idx obj_begin obj_end).mem loc = s.mem loc) := by
  unfold poison_escapes
  cases h : (s.spans sid).escape_list with
  | none =>
    refine ⟨?_, ?_, ?_⟩
    · simp [slotChain, h]
    · intro loc hm
      simp [slotChain, h] at hm
    · intro loc hm
      simp [slotChain, h] at hm
  | some el =>
    cases hc : el idx with
    | nil =>
      refine ⟨?_, ?_, ?_⟩
      · simp [slotChain, h, hc]
      · intro loc hm
        simp [slotChain, h, hc] at hm
      · intro loc hm
        simp [slotChain, h, hc] at hm
    | cons a t =>
      refine ⟨?_, ?_, ?_⟩
      · simp [slotChain, setSpan, h, hc]
      · intro loc hm
        simp only [slotChain, h] at hm
        rw [hc] at hm
        simp [setSpan, h, hc, hm]
      · intro loc _ _
        simp [setSpan, h, hc]

/-- State witnessing C5: span 0 has an escape list whose slot 0 chain
holds the single node 0x3000; the cell at 0x3000 stores 0, outside
any object range. -/
def w5State : TCState :=
  mkState (fun _ => 0) (fun _ => some 0)
    (fun _ => { exSpan 0x1000 1 2 with
                escape_list := some (fun i => if i = 0 then [0x3000] else []) })
    (fun _ => 0) (fun _ => 0) [] 64

/-- Witness for C5 at a concrete input: the chain of slot 0 is reset
to null, its node lands in the arena, and the cell it names (whose
value 0 lies outside [0x1000, 0x1008)) is untouched. -/
theorem claim_C5_witness :
    slotChain (poison_escapes w5State 0 0 0x1000 0x1008) 0 0 = [] ∧
    0x3000 ∈ (poison_escapes w5State 0 0 0x1000 0x1008).arenaFreed ∧
    (poison_escapes w5State 0 0 0x1000 0x1008).mem 0x3000 = w5State.mem 0x3000 := by
  refine ⟨(claim_C5 w5State 0 0 0x1000 0x1008).1, ?_, ?_⟩
  · exact (claim_C5 w5State 0 0 0x1000 0x1008).2.1 0x3000 (by decide)
  · exact (claim_C5 w5State 0 0 0x1000 0x1008).2.2 0x3000 (by decide) (by decide)

/-- CLAIM C4: on a protected free of ptr whose page has a Span (with
the well-formedness the CHECK_CONDITION guards assert: GetSize
matches the span's stamped object size, which is nonzero), a nonzero
remainder of (ptr - span.start_address) mod obj_size makes the
allocator log double/invalid free and return with the state exactly
unchanged - no freelist deposit and no escape poisoning; a zero
remainder proceeds to poison_escapes on the slot and then the deposit
(the small-object cache when the pagemap class is nonzero, else the
page path). -/
theorem claim_C4 (s : TCState) (ptr sid : Nat)
    (hp : ptr ≠ 0)
    (hd : s.descriptor (pageIdOf s ptr) = some sid)
    (hgs : GetSize s ptr = (s.spans sid).obj_size * 8)
    (hos : (s.spans sid).obj_size ≠ 0) :
    ((ptr - (s.spans sid).start_address) % ((s.spans sid).obj_size * 8) ≠ 0 →
      do_free_protected s ptr = ([FreeEvent.invalidFreeLog], s)) ∧
    ((ptr - (s.spans sid).start_address) % ((s.spans sid).obj_size * 8) = 0 →
      (s.pageInfo (pageIdOf s ptr) % 256 ≠ 0 →
        do_free_protected s ptr =
          ([FreeEvent.depositSmall (s.pageInfo (pageIdOf s ptr) % 256) ptr],
           { poison_escapes s sid
               ((ptr - (s.spans sid).start_address) / ((s.spans sid).obj_size * 8))
               ptr (ptr + (s.spans sid).obj_size * 8) with
             freelist := ptr ::
               (poison_escapes s sid
                 ((ptr - (s.spans sid).start_address) / ((s.spans sid).obj_size * 8))
                 ptr (ptr + (s.spans sid).obj_size * 8)).freelist })) ∧
      (s.pageInfo (pageIdOf s ptr) % 256 = 0 →
        do_free_protected s ptr =
          ([FreeEvent.depositPages ptr],
           { poison_escapes s sid
               ((ptr - (s.spans sid).start_address) / ((s.spans sid).obj_size * 8))
               ptr (ptr + (s.spans sid).obj_size * 8) with
             pagesFreed := ptr ::
               (poison_escapes s sid
                 ((ptr - (s.spans sid).start_address) / ((s.spans sid).obj_size * 8))
                 ptr (ptr + (s.spans sid).obj_size * 8)).pagesFreed }))) := by
  constructor
  · intro hmod
    unfold do_free_protected
    simp [hp, hd, hgs, hos, hmod]
  · intro hmod
    constructor
    · intro hsc
      unfold do_free_protected
      simp [hp, hd, hgs, hos, hmod, hsc]
    · intro hsc
      unfold do_free_protected
      simp [hp, hd, hgs, hos, hmod, hsc]

/-- State witnessing C4: page 1 holds span 0 with start 0x1000 and
16-byte objects; the pagemap class of the page is 0 so a legitimate
free takes the page path, and 0x1004 is misaligned inside the first
object.  GetSize resolves through the span (class 0, not sampled):
one page of 4096 bytes, so obj_size is stamped as 512 units. -/
def w4State : TCState :=
  mkState (fun _ => 0) (fun p => if p = 1 then some 0 else none)
    (fun _ => exSpan 0x1000 512 1) (fun _ => 0) (fun _ => 0) [] 64

/-- Witness for C4 at a concrete input: the misaligned pointer 0x1004
is reported as invalid free with the state untouched, and the aligned
pointer 0x1000 is deposited on the page path after poisoning. -/
theorem claim_C4_witness :
    do_free_protected w4State 0x1004 = ([FreeEvent.invalidFreeLog], w4State) ∧
    (do_free_protected w4State 0x1000).1 = [FreeEvent.depositPages 0x1000] := by
  constructor
  · exact (claim_C4 w4State 0x1004 0 (by decide) (by decide) (by decide)
      (by decide)).1 (by decide)
  · rw [((claim_C4 w4State 0x1000 0 (by decide) (by decide) (by decide)
      (by decide)).2 (by decide)).2 (by decide)]

/-- CLAIM C7: for realloc on a live allocation of current size old
(old = GetSize, assumed small enough that the overflow clamp on the
growth bound is inactive): when new is at most old and at least
old/2, the same pointer is returned with no allocation, no copy and
no free; when new exceeds old or is below old/2, whenever a new block
is obtained exactly min(old, new) bytes are copied and the old block
is freed, and on a small growth (old < new < old + old/4, the
integer form of old * 1.25) the first allocation attempted is of size
old + old/4. -/
theorem claim_C7 (oracle : Nat → Option Nat) (s : TCState)
    (old_ptr new_size : Nat)
    (hnoov : GetSize s old_ptr / 4 ≤ SIZE_MAX - GetSize s old_ptr) :
    (new_size ≤ GetSize s old_ptr ∧ GetSize s old_ptr / 2 ≤ new_size →
      do_realloc false oracle s old_ptr new_size =
        { ret := some old_ptr, allocCalls := [], copied := none, freedOld := false }) ∧
    ((GetSize s old_ptr < new_size ∨ new_size < GetSize s old_ptr / 2) →
      (∀ np, (do_realloc false oracle s old_ptr new_size).ret = some np →
        (do_realloc false oracle s old_ptr new_size).copied =
          some (min (GetSize s old_ptr) new_size) ∧
        (do_realloc false oracle s old_ptr new_size).freedOld = true) ∧
      (GetSize s old_ptr < new_size ∧
          new_size < GetSize s old_ptr + GetSize s old_ptr / 4 →
        (do_realloc false oracle s old_ptr new_size).allocCalls.head? =
          some (GetSize s old_ptr + GetSize s old_ptr / 4))) := by
  have hmin : min (GetSize s old_ptr / 4) (SIZE_MAX - GetSize s old_ptr) =
      GetSize s old_ptr / 4 := Nat.min_eq_left hnoov
  constructor
  · rintro ⟨h1, h2⟩
    unfold do_realloc
    dsimp only
    simp only [show (if (false : Bool) = true then new_size + 1 else new_size) =
      new_size from rfl]
    rw [if_neg (by omega)]
  · intro hre
    unfold do_realloc
    dsimp only
    simp only [show (if (false : Bool) = true then new_size + 1 else new_size) =
      new_size from rfl]
    simp only [hmin]
    rw [if_pos hre]
    by_cases htl : GetSize s old_ptr < new_size ∧
        new_size < GetSize s old_ptr + GetSize s old_ptr / 4
    · rw [if_pos htl]
      cases ho : oracle (GetSize s old_ptr + GetSize s old_ptr / 4) with
      | some np =>
        dsimp only
        exact ⟨fun np2 _ => ⟨rfl, rfl⟩, fun _ => rfl⟩
      | none =>
        dsimp only
        rw [if_pos htl]
        cases ho2 : oracle new_size with
        | none =>
          dsimp only
          exact ⟨fun np2 h => Option.noConfusion h, fun _ => rfl⟩
        | some np =>
          dsimp only
          exact ⟨fun np2 _ => ⟨rfl, rfl⟩, fun _ => rfl⟩
    · rw [if_neg htl]
      dsimp only
      rw [if_neg htl]
      cases ho2 : oracle new_size with
      | none =>
        dsimp only
        exact ⟨fun np2 h => Option.noConfusion h, fun hg => absurd hg htl⟩
      | some np =>
        dsimp only
        exact ⟨fun np2 _ => ⟨rfl, rfl⟩, fun hg => absurd hg htl⟩

/-- Witness for C7 at concrete inputs: with the old block of internal
size 4096 (w4State span path), a same-size realloc keeps the pointer
with no allocation and no free, and a small growth to 5000 first asks
the allocator for 4096 + 1024 bytes, copies 4096 bytes and frees the
old block. -/
theorem claim_C7_witness :
    do_realloc false (fun n => some (n + 0x100000)) w4State 0x1000 4096 =
      { ret := some 0x1000, allocCalls := [], copied := none, freedOld := false } ∧
    (do_realloc false (fun n => some (n + 0x100000)) w4State 0x1000 5000).allocCalls.head? =
      some 5120 ∧
    (do_realloc false (fun n => some (n + 0x100000)) w4State 0x1000 5000).copied =
      some 4096 ∧
    (do_realloc false (fun n => some (n + 0x100000)) w4State 0x1000 5000).freedOld = true := by
  have h1 := (claim_C7 (fun n => some (n + 0x100000)) w4State 0x1000 4096
    (by decide)).1 (by decide)
  have h2 := (claim_C7 (fun n => some (n + 0x100000)) w4State 0x1000 5000
    (by decide)).2 (by decide)
  have h3 := h2.1 ((do_realloc false (fun n => some (n + 0x100000)) w4State 0x1000 5000).ret.getD 0)
    (by decide)
  have h4 := h2.2 (by decide)
  refine ⟨h1, ?_, ?_, h3.2⟩
  · simpa using h4
  · simpa using h3.1

/-- CLAIM C8: under ENABLE_PROTECTION the size class for a request of
n bytes is looked up for n + 1 bytes, and malloc_size on the returned
pointer reports the internal chunk size minus the one padding byte;
with the size-class monotonicity contract of the SizeMap (modelled
from the spec: class_to_size(size_class(m)) is at least m) and the
allocator invariant that the returned pointer's page is stamped with
the chosen class, the reported size is at least n. -/
theorem claim_C8 (s : TCState) (n ptr c : Nat)
    (hc : s.sizeClassOf (fast_alloc_lookup_size true n) = c)
    (hcne : c ≠ 0)
    (hmono : fast_alloc_lookup_size true n ≤ s.class_to_size c)
    (hpage : s.pageInfo (pageIdOf s ptr) % 256 = c)
    (hptr : ptr ≠ 0) :
    fast_alloc_lookup_size true n = n + 1 ∧
    TCMallocInternalMallocSize s ptr = s.class_to_size c - 1 ∧
    n ≤ TCMallocInternalMallocSize s ptr := by
  have hsz : GetSize s ptr = s.class_to_size c := by
    unfold GetSize
    rw [if_neg hptr]
    dsimp only
    rw [hpage, if_pos hcne]
  refine ⟨rfl, ?_, ?_⟩
  · unfold TCMallocInternalMallocSize
    rw [hsz]
  · unfold TCMallocInternalMallocSize
    rw [hsz]
    have : n + 1 ≤ s.class_to_size c := hmono
    omega

/-- State witnessing C8: class 7 has 32-byte chunks, the size-class
lookup maps 25 bytes (request 24 plus the pad) to class 7, and page 1
is stamped with class 7. -/
def w8State : TCState :=
  { mkState (fun p => if p = 1 then 263 else 0) (fun _ => none)
      (fun _ => exSpan 0 0 0) (fun c => if c = 7 then 32 else 0)
      (fun _ => 0) [] 64 with
    sizeClassOf := fun m => if m ≤ 32 ∧ m ≠ 0 then 7 else 0 }

/-- Witness for C8 at a concrete input: a request of 24 bytes looks up
class 7 via 25 bytes, and malloc_size of the returned chunk reports
31, at least the requested 24. -/
theorem claim_C8_witness :
    fast_alloc_lookup_size true 24 = 25 ∧
    TCMallocInternalMallocSize w8State 0x1000 = 31 ∧
    24 ≤ TCMallocInternalMallocSize w8State 0x1000 := by
  have h := claim_C8 w8State 24 0x1000 7 (by decide) (by decide) (by decide)
    (by decide) (by decide)
  refine ⟨h.1, ?_, h.2.2⟩
  rw [h.2.1]
  decide

/-- CLAIM C10: whenever n * elem_size overflows size_t (elem_size is
nonzero and dividing the wrapped product by elem_size does not give n
back), calloc performs no allocation and no memset and returns the
out-of-memory result, a null pointer under the malloc policy. -/
theorem claim_C10 (oracle : Nat → Option Nat) (n elem_size : Nat)
    (h : elem_size ≠ 0 ∧ (n * elem_size) % 2 ^ 64 / elem_size ≠ n) :
    TCMallocInternalCalloc oracle n elem_size = (none, [], false) := by
  unfold TCMallocInternalCalloc
  rw [if_pos h]

/-- Witness for C10 at a concrete input: 2^33 times 2^33 wraps to 0 in
size_t, and calloc returns null with no allocation and no memset. -/
theorem claim_C10_witness :
    TCMallocInternalCalloc (fun sz => some (sz + 0x1000)) (2 ^ 33) (2 ^ 33) =
      (none, [], false) := by
  exact claim_C10 (fun sz => some (sz + 0x1000)) (2 ^ 33) (2 ^ 33)
    ⟨by decide, by decide⟩

/-- One unfolding of the copy loop. -/
theorem strcpy_loop_succ (dst_end src_end fuel : Nat) (mem : Nat → Nat)
    (dst src : Nat) :
    strcpy_loop dst_end src_end (fuel + 1) mem dst src =
      if mem src ≠ 0 then
        if src < src_end ∧ dst < dst_end then
          strcpy_loop dst_end src_end fuel
            (fun a => if a = dst then mem src else mem a) (dst + 1) (src + 1)
        else
          strcpy_loop dst_end src_end fuel mem dst src
      else
        some (fun a => if a = dst then 0 else mem a, dst) := rfl

/-- Once the source byte is nonzero and the bounds check fails, the
report-only copy loop repeats the same state forever: no amount of
fuel finishes it. -/
theorem strcpy_loop_stuck (dst_end src_end : Nat) (mem : Nat → Nat)
    (dst src : Nat) (hnz : mem src ≠ 0)
    (hfail : ¬(src < src_end ∧ dst < dst_end)) :
    ∀ fuel, strcpy_loop dst_end src_end fuel mem dst src = none := by
  intro fuel
  induction fuel with
  | zero => rfl
  | succ k ih =>
    rw [strcpy_loop_succ, if_pos hnz, if_neg hfail]
    exact ih

/-- State on which do_strcpy_check diverges: the destination 0x1000
is a 1-byte chunk (page 1 packed word 261: compact class 5, first
page 1; class 5 has size 1), the source 0x2000 is non-heap (chunk end
sentinel 2^48), and every memory byte is 65, so the source string
never terminates inside any chunk. -/
def cex9State : TCState :=
  mkState (fun p => if p = 1 then 261 else 0) (fun _ => none)
    (fun _ => exSpan 0 0 0) (fun c => if c = 5 then 1 else 0)
    (fun _ => 0) [] 64

/-- CLAIM C9 is violated by the code: at this input the copy fills the
one-byte destination chunk, after which the destination cursor equals
chunk_end(dst) while the source byte is still nonzero; in the
report-only build the failed bounds check does not advance either
cursor, so the loop never returns - do_strcpy_check yields none for
every fuel, refuting bounded-time termination. -/
theorem claim_C9_nontermination :
    ∀ fuel, do_strcpy_check cex9State 0x1000 0x2000 fuel = none := by
  have hde : do_get_chunk_end cex9State 0x1000 = 0x1001 := by decide
  have hse : do_get_chunk_end cex9State 0x2000 = 0x1000000000000 := by decide
  intro fuel
  cases fuel with
  | zero => rfl
  | succ k =>
    have hstep : do_strcpy_check cex9State 0x1000 0x2000 (k + 1) =
        strcpy_loop 0x1001 0x1000000000000 (k + 1) cex9State.membyte
          0x1000 0x2000 := by
      unfold do_strcpy_check
      rw [hde, hse]
    rw [hstep, strcpy_loop_succ,
      if_pos (show cex9State.membyte 0x2000 ≠ 0 from by decide),
      if_pos (show 0x2000 < 0x1000000000000 ∧ 0x1000 < 0x1001 from by decide)]
    exact strcpy_loop_stuck 0x1001 0x1000000000000
      (fun a => if a = 0x1000 then cex9State.membyte 0x2000 else cex9State.membyte a)
      0x1001 0x2001 (by decide) (by decide) k

end SafeTcmalloc
